import Mathlib

/-!
# Image preview geometry (`src/js/view/createImageView.js`)

A shallow embedding of the numeric code of `createImageView.js`.

JavaScript numbers are read as elements of an ordered field `α` with exact
arithmetic (`ℝ` in the theorems, `ℚ` for evaluation).  The host functions
`Math.sin`, `Math.cos`, `Math.sqrt`, the constant `Math.PI` and the literal
`1.5707963267948966` are not code of this file: the definitions take them as
the record `JSMath α`, and the theorems instantiate it with `Real.sin`,
`Real.cos`, `Real.sqrt`, `Real.pi` and `Real.pi / 2`.
`Math.abs`, `Math.max` and `Math.min` are `|·|`, `max` and `min` of `α`.
`null` is `none`.
-/

namespace ImagePreview

/-! ## Host numerics -/

/-- Host numeric primitives used by the source. `quarter` is the value the source writes as the
literal `1.5707963267948966`. -/
structure JSMath (α : Type) where
  sin : α → α
  cos : α → α
  sqrt : α → α
  PI : α
  quarter : α

/-- JavaScript truncation of a quotient toward zero. -/
def jsTrunc {α : Type} [LinearOrderedField α] [FloorRing α] (q : α) : ℤ :=
  if 0 ≤ q then Int.floor q else Int.ceil q

/-- JavaScript `a % n` on numbers: `a - n * trunc (a / n)`, the remainder with the sign of the
dividend. -/
def jsRem {α : Type} [LinearOrderedField α] [FloorRing α] (a n : α) : α :=
  a - n * ((jsTrunc (a / n) : ℤ) : α)

/-- JavaScript truthiness of a nullable number: `null` and `0` are falsy. -/
def truthy {α : Type} [LinearOrderedField α] (a : Option α) : Bool :=
  match a with
  | some v => decide (v ≠ 0)
  | none => false

/-- JavaScript `a || b` for a nullable number `a` and a number `b`. -/
def jsOr {α : Type} [LinearOrderedField α] (a : Option α) (b : α) : α :=
  match a with
  | some v => if v ≠ 0 then v else b
  | none => b

/-! ## Data model -/

/-- The object `{x, y}` built by `createVector`. -/
structure Vec (α : Type) where
  x : α
  y : α

/-- An object with `width` and `height` (image, container). -/
structure Size (α : Type) where
  width : α
  height : α

/-- An object `{x, y, width, height}`. -/
structure Rect (α : Type) where
  x : α
  y : α
  width : α
  height : α

/-- The `stage` object literal of `createClipView.write`. -/
structure Stage (α : Type) where
  x : α
  y : α
  width : α
  height : α
  center : Vec α

/-- The `flip` member of a crop. -/
structure Flip where
  horizontal : Bool
  vertical : Bool

/-- The crop descriptor read by the views. -/
structure Crop (α : Type) where
  center : Vec α
  zoom : α
  rotation : α
  aspectRatio : Option α
  flip : Flip

/-- State of the `image-canvas-wrapper` view as seen by `createClipView.write`: its `crop`,
`width`, `height` props and its seven transform styles. -/
structure ImageCanvasWrapper (α : Type) where
  crop : Crop α
  width : α
  height : α
  originX : Option α
  originY : Option α
  translateX : Option α
  translateY : Option α
  rotateZ : Option α
  scaleX : Option α
  scaleY : Option α

/-- The `props` of the `image-clip` view read by its `write`. -/
structure ClipProps (α : Type) where
  crop : Crop α
  width : α
  height : α

/-- State of the `image-clip` view as seen by `createImageView.write`. -/
structure ClipView (α : Type) where
  crop : Crop α
  opacity : α
  width : α
  height : α

/-- Results of the `root.query` calls of `createImageView.write`. -/
structure Queries (α : Type) where
  GET_IMAGE_PREVIEW_HEIGHT : Option α
  GET_IMAGE_PREVIEW_MIN_HEIGHT : α
  GET_IMAGE_PREVIEW_MAX_HEIGHT : α
  GET_PANEL_ASPECT_RATIO : Option α
  GET_ALLOW_MULTIPLE : Bool

section Defs

variable {α : Type} [LinearOrderedField α]

/-! ## Geometry (lines 10-104) -/

def createVector (x y : α) : Vec α := ⟨x, y⟩

def vectorDot (a b : Vec α) : α := a.x * b.x + a.y * b.y

def vectorSubtract (a b : Vec α) : Vec α := createVector (a.x - b.x) (a.y - b.y)

def vectorDistanceSquared (a b : Vec α) : α :=
  vectorDot (vectorSubtract a b) (vectorSubtract a b)

def vectorDistance (M : JSMath α) (a b : Vec α) : α :=
  M.sqrt (vectorDistanceSquared a b)

def getOffsetPointOnEdge (M : JSMath α) (length rotation : α) : Vec α :=
  let a := length
  let A := M.quarter
  let B := rotation
  let C := M.quarter - rotation
  let sinA := M.sin A
  let sinB := M.sin B
  let sinC := M.sin C
  let cosC := M.cos C
  let ratio := a / sinA
  let b := ratio * sinB
  let c := ratio * sinC
  createVector (cosC * b) (cosC * c)

def getRotatedRectSize (M : JSMath α) (rect : Rect α) (rotation : α) : Size α :=
  let w := rect.width
  let h := rect.height
  let hor := getOffsetPointOnEdge M w rotation
  let ver := getOffsetPointOnEdge M h rotation
  let tl := createVector (rect.x + |hor.x|) (rect.y - |hor.y|)
  let tr := createVector (rect.x + rect.width + |ver.y|) (rect.y + |ver.x|)
  let bl := createVector (rect.x - |ver.y|) ((rect.y + rect.height) - |ver.x|)
  { width := vectorDistance M tl tr, height := vectorDistance M tl bl }

def getImageRectZoomFactor (M : JSMath α) (imageRect : Size α) (cropRect : Rect α)
    (rotation : α) (center : Vec α) : α :=
  let cx := if center.x > 1 / 2 then 1 - center.x else center.x
  let cy := if center.y > 1 / 2 then 1 - center.y else center.y
  let imageWidth := cx * 2 * imageRect.width
  let imageHeight := cy * 2 * imageRect.height
  let rotatedCropSize := getRotatedRectSize M cropRect rotation
  max (rotatedCropSize.width / imageWidth) (rotatedCropSize.height / imageHeight)

def getCenteredCropRect (container : Size α) (aspectRatio : α) : Rect α :=
  let width := container.width
  let height := width * aspectRatio
  let (width, height) :=
    if height > container.height then (container.height / aspectRatio, container.height)
    else (width, height)
  let x := (container.width - width) * (1 / 2)
  let y := (container.height - height) * (1 / 2)
  { x := x, y := y, width := width, height := height }

/-! ## `createClipView.write` (lines 200-269) -/

/-- The `write` of the `image-clip` view: from the state `imageView` of `root.ref.image`, the
props and `shouldOptimize`, the state of `root.ref.image` after the call. -/
def createClipView.write [FloorRing α] (M : JSMath α) (imageView : ImageCanvasWrapper α)
    (props : ClipProps α) (shouldOptimize : Bool) : ImageCanvasWrapper α :=
  let crop := props.crop
  let width := props.width
  let height := props.height
  let imageView := { imageView with crop := crop }
  let stage : Stage α :=
    { x := 0, y := 0, width := width, height := height,
      center := { x := width * (1 / 2), y := height * (1 / 2) } }
  let image : Size α := { width := imageView.width, height := imageView.height }
  let origin : Vec α := { x := crop.center.x * image.width, y := crop.center.y * image.height }
  let translation : Vec α :=
    { x := stage.center.x - image.width * crop.center.x,
      y := stage.center.y - image.height * crop.center.y }
  let rotation := M.PI * 2 + jsRem crop.rotation (M.PI * 2)
  let cropAspectRatio := jsOr crop.aspectRatio (image.height / image.width)
  let stageZoomFactor :=
    getImageRectZoomFactor M image
      (getCenteredCropRect { width := stage.width, height := stage.height } cropAspectRatio)
      rotation crop.center
  let scale := crop.zoom * stageZoomFactor
  if shouldOptimize then
    { imageView with
      originX := none, originY := none, translateX := none, translateY := none,
      rotateZ := none, scaleX := none, scaleY := none }
  else
    { imageView with
      originX := some origin.x, originY := some origin.y,
      translateX := some translation.x, translateY := some translation.y,
      rotateZ := some rotation, scaleX := some scale, scaleY := some scale }

/-! ## `createImageView.write` (lines 302-361) -/

/-- The `write` of the `image-preview` view: from the state `clip` of `root.ref.clip`, the props
`crop` and `image`, the container `root.rect.inner`, the query results and `shouldOptimize`,
the state of `root.ref.clip` after the call. -/
def createImageView.write (clip : ClipView α) (crop : Crop α) (image : Size α)
    (inner : Size α) (query : Queries α) (shouldOptimize : Bool) : ClipView α :=
  let clip := { clip with crop := crop }
  let clip := { clip with opacity := if shouldOptimize then 0 else 1 }
  if shouldOptimize then clip
  else
    let imageAspectRatio := image.height / image.width
    let aspectRatio := jsOr crop.aspectRatio imageAspectRatio
    let containerWidth := inner.width
    let containerHeight := inner.height
    let fixedPreviewHeight := query.GET_IMAGE_PREVIEW_HEIGHT
    let minPreviewHeight := query.GET_IMAGE_PREVIEW_MIN_HEIGHT
    let maxPreviewHeight := query.GET_IMAGE_PREVIEW_MAX_HEIGHT
    let panelAspectRatio := query.GET_PANEL_ASPECT_RATIO
    let allowMultiple := query.GET_ALLOW_MULTIPLE
    let (fixedPreviewHeight, aspectRatio) :=
      match panelAspectRatio with
      | some p =>
        if p ≠ 0 ∧ allowMultiple = false then (some (containerWidth * p), p)
        else (fixedPreviewHeight, aspectRatio)
      | none => (fixedPreviewHeight, aspectRatio)
    let clipHeight :=
      match fixedPreviewHeight with
      | some f => f
      | none => max minPreviewHeight (min (containerWidth * aspectRatio) maxPreviewHeight)
    let clipWidth := clipHeight / aspectRatio
    let (clipWidth, clipHeight) :=
      if clipWidth > containerWidth then (containerWidth, containerWidth * aspectRatio)
      else (clipWidth, clipHeight)
    let (clipWidth, clipHeight) :=
      if clipHeight > containerHeight then (containerHeight / aspectRatio, containerHeight)
      else (clipWidth, clipHeight)
    { clip with width := clipWidth, height := clipHeight }

/-- The value of the local `aspectRatio` of `createImageView.write` when the clip size is
computed (after line 334): the panel aspect ratio when it is truthy and `allowMultiple` is
false, otherwise `crop.aspectRatio || image.height / image.width`. -/
def effectiveAspectRatio (crop : Crop α) (image : Size α) (query : Queries α) : α :=
  match query.GET_PANEL_ASPECT_RATIO with
  | some p =>
    if p ≠ 0 ∧ query.GET_ALLOW_MULTIPLE = false then p
    else jsOr crop.aspectRatio (image.height / image.width)
  | none => jsOr crop.aspectRatio (image.height / image.width)

/-- Whether the panel override of lines 331-334 fires. -/
def panelOverride (query : Queries α) : Bool :=
  truthy query.GET_PANEL_ASPECT_RATIO && !query.GET_ALLOW_MULTIPLE

/-- The value of the local `clipHeight` of `createImageView.write` after its first assignment
(lines 337-346). -/
def initialClipHeight (crop : Crop α) (image : Size α) (inner : Size α) (query : Queries α) : α :=
  match query.GET_PANEL_ASPECT_RATIO with
  | some p =>
    if p ≠ 0 ∧ query.GET_ALLOW_MULTIPLE = false then inner.width * p
    else
      match query.GET_IMAGE_PREVIEW_HEIGHT with
      | some f => f
      | none =>
        max query.GET_IMAGE_PREVIEW_MIN_HEIGHT
          (min (inner.width * jsOr crop.aspectRatio (image.height / image.width))
            query.GET_IMAGE_PREVIEW_MAX_HEIGHT)
  | none =>
    match query.GET_IMAGE_PREVIEW_HEIGHT with
    | some f => f
    | none =>
      max query.GET_IMAGE_PREVIEW_MIN_HEIGHT
        (min (inner.width * jsOr crop.aspectRatio (image.height / image.width))
          query.GET_IMAGE_PREVIEW_MAX_HEIGHT)

/-- Lines 348-357 of `createImageView.write`: from the container size, the aspect ratio and the
initial clip height, the pair `(clipWidth, clipHeight)` after the two containment adjustments. -/
def containClip (cw ch ar h0 : α) : α × α :=
  let clipHeight := h0
  let clipWidth := clipHeight / ar
  let (clipWidth, clipHeight) :=
    if clipWidth > cw then (cw, cw * ar) else (clipWidth, clipHeight)
  if clipHeight > ch then (ch / ar, ch) else (clipWidth, clipHeight)

/-- The value of the local `imageWidth` of `getImageRectZoomFactor` (lines 73 and 75). -/
def effectiveImageWidth (imageRect : Size α) (center : Vec α) : α :=
  (if center.x > 1 / 2 then 1 - center.x else center.x) * 2 * imageRect.width

/-- The value of the local `imageHeight` of `getImageRectZoomFactor` (lines 74 and 76). -/
def effectiveImageHeight (imageRect : Size α) (center : Vec α) : α :=
  (if center.y > 1 / 2 then 1 - center.y else center.y) * 2 * imageRect.height

/-- The clamp of a value to the interval from `lo` to `hi`, as the specification words the
initial clip height: `lo` below the interval, `hi` above it, the value itself inside. -/
def clamp (v lo hi : α) : α :=
  if v < lo then lo else if hi < v then hi else v

/-! ## Sample inputs -/

/-- A crop with centre `(1/2, 1/2)`, zoom `1`, rotation `0` and the given aspect ratio. -/
def sampleCrop (aspectRatio : Option α) : Crop α :=
  { center := { x := 1 / 2, y := 1 / 2 }, zoom := 1, rotation := 0,
    aspectRatio := aspectRatio, flip := { horizontal := false, vertical := false } }

/-- A clip view before its first layout. -/
def sampleClip : ClipView α :=
  { crop := sampleCrop none, opacity := 0, width := 0, height := 0 }

/-- Queries with no fixed height, minimum height `44`, maximum height `256`, no panel aspect
ratio and `allowMultiple` false. -/
def sampleQueries : Queries α :=
  { GET_IMAGE_PREVIEW_HEIGHT := none, GET_IMAGE_PREVIEW_MIN_HEIGHT := 44,
    GET_IMAGE_PREVIEW_MAX_HEIGHT := 256, GET_PANEL_ASPECT_RATIO := none,
    GET_ALLOW_MULTIPLE := false }

/-- An image view of the given intrinsic size before its first layout. -/
def sampleImageView (width height : α) : ImageCanvasWrapper α :=
  { crop := sampleCrop none, width := width, height := height,
    originX := none, originY := none, translateX := none, translateY := none,
    rotateZ := none, scaleX := none, scaleY := none }

end Defs

/-! ## Theorems -/

section Geometry

/-- With the real host numerics, `getOffsetPointOnEdge a t` is `(a sin² t, a sin t cos t)`. -/
theorem getOffsetPointOnEdge_real (a t : ℝ) :
    getOffsetPointOnEdge ⟨Real.sin, Real.cos, Real.sqrt, Real.pi, Real.pi / 2⟩ a t
      = ⟨a * Real.sin t ^ 2, a * (Real.sin t * Real.cos t)⟩ := by
  simp only [getOffsetPointOnEdge, createVector, Real.sin_pi_div_two, Real.sin_pi_div_two_sub,
    Real.cos_pi_div_two_sub, div_one]
  congr 1 <;> ring

/-- Bounding width of the rotated rectangle, for non-negative sides. -/
theorem rotated_width_eq (x y w h t : ℝ) (hw : 0 ≤ w) (hh : 0 ≤ h) :
    (getRotatedRectSize ⟨Real.sin, Real.cos, Real.sqrt, Real.pi, Real.pi / 2⟩ ⟨x, y, w, h⟩ t).width
      = w * |Real.cos t| + h * |Real.sin t| := by
  have hs : |Real.sin t| ^ 2 + |Real.cos t| ^ 2 = 1 := by
    rw [sq_abs, sq_abs]; exact Real.sin_sq_add_cos_sq t
  have hs2 : Real.sin t ^ 2 = |Real.sin t| ^ 2 := (sq_abs _).symm
  have hnn : 0 ≤ w * |Real.cos t| + h * |Real.sin t| :=
    add_nonneg (mul_nonneg hw (abs_nonneg _)) (mul_nonneg hh (abs_nonneg _))
  simp only [getRotatedRectSize, getOffsetPointOnEdge_real, vectorDistance,
    vectorDistanceSquared, vectorDot, vectorSubtract, createVector]
  rw [abs_mul, abs_mul, abs_mul, abs_mul, abs_mul, abs_mul, abs_of_nonneg hw, abs_of_nonneg hh,
    abs_of_nonneg (sq_nonneg (Real.sin t)), hs2]
  generalize |Real.sin t| = S at *
  generalize |Real.cos t| = C at *
  rw [← Real.sqrt_sq hnn]
  congr 1
  linear_combination
    (w ^ 2 * (S ^ 2 + C ^ 2 - 1) - 2 * w * C * (w * C + h * S) + (w * C + h * S) ^ 2) * hs

/-- Bounding height of the rotated rectangle, for non-negative sides. -/
theorem rotated_height_eq (x y w h t : ℝ) (hw : 0 ≤ w) (hh : 0 ≤ h) :
    (getRotatedRectSize ⟨Real.sin, Real.cos, Real.sqrt, Real.pi, Real.pi / 2⟩ ⟨x, y, w, h⟩ t).height
      = w * |Real.sin t| + h * |Real.cos t| := by
  have hs : |Real.sin t| ^ 2 + |Real.cos t| ^ 2 = 1 := by
    rw [sq_abs, sq_abs]; exact Real.sin_sq_add_cos_sq t
  have hs2 : Real.sin t ^ 2 = |Real.sin t| ^ 2 := (sq_abs _).symm
  have hnn : 0 ≤ w * |Real.sin t| + h * |Real.cos t| :=
    add_nonneg (mul_nonneg hw (abs_nonneg _)) (mul_nonneg hh (abs_nonneg _))
  simp only [getRotatedRectSize, getOffsetPointOnEdge_real, vectorDistance,
    vectorDistanceSquared, vectorDot, vectorSubtract, createVector]
  rw [abs_mul, abs_mul, abs_mul, abs_mul, abs_mul, abs_mul, abs_of_nonneg hw, abs_of_nonneg hh,
    abs_of_nonneg (sq_nonneg (Real.sin t)), hs2]
  generalize |Real.sin t| = S at *
  generalize |Real.cos t| = C at *
  rw [← Real.sqrt_sq hnn]
  congr 1
  linear_combination
    ((w * S + h * C) ^ 2 + h ^ 2 * (S ^ 2 + C ^ 2 - 1) - 2 * C * h * (w * S + h * C)) * hs

/-- C1: for a rect with non-negative width `w` and height `h` (any `x`, `y`) and every real
rotation `t`, `getRotatedRectSize` returns the axis-aligned bounding size of the rotated
rectangle, `width = w |cos t| + h |sin t|` and `height = w |sin t| + h |cos t|`, the literal
`1.5707963267948966` being read as `π / 2`. -/
theorem C1_getRotatedRectSize_bounding (rect : Rect ℝ) (t : ℝ)
    (hw : 0 ≤ rect.width) (hh : 0 ≤ rect.height) :
    getRotatedRectSize ⟨Real.sin, Real.cos, Real.sqrt, Real.pi, Real.pi / 2⟩ rect t
      = { width := rect.width * |Real.cos t| + rect.height * |Real.sin t|,
          height := rect.width * |Real.sin t| + rect.height * |Real.cos t| } := by
  obtain ⟨x, y, w, h⟩ := rect
  have h1 := rotated_width_eq x y w h t hw hh
  have h2 := rotated_height_eq x y w h t hw hh
  generalize getRotatedRectSize _ _ t = r at h1 h2
  obtain ⟨rw, rh⟩ := r
  simp only at h1 h2
  rw [h1, h2]

/-- C1 at the rect `{x: 3, y: -2, width: 100, height: 50}` and rotation `2`. -/
theorem C1_getRotatedRectSize_bounding_witness :
    (0 : ℝ) ≤ (⟨3, -2, 100, 50⟩ : Rect ℝ).width ∧ (0 : ℝ) ≤ (⟨3, -2, 100, 50⟩ : Rect ℝ).height ∧
    getRotatedRectSize ⟨Real.sin, Real.cos, Real.sqrt, Real.pi, Real.pi / 2⟩ ⟨3, -2, 100, 50⟩ 2
      = { width := (⟨3, -2, 100, 50⟩ : Rect ℝ).width * |Real.cos 2|
            + (⟨3, -2, 100, 50⟩ : Rect ℝ).height * |Real.sin 2|,
          height := (⟨3, -2, 100, 50⟩ : Rect ℝ).width * |Real.sin 2|
            + (⟨3, -2, 100, 50⟩ : Rect ℝ).height * |Real.cos 2| } :=
  ⟨by norm_num, by norm_num,
    C1_getRotatedRectSize_bounding ⟨3, -2, 100, 50⟩ 2 (by norm_num) (by norm_num)⟩

end Geometry

section Viewport

variable {α : Type} [LinearOrderedField α]

/-- The clip size written by `createImageView.write` is `containClip` of the container, the
effective aspect ratio and the initial clip height. -/
theorem write_size (clip : ClipView α) (crop : Crop α) (image inner : Size α)
    (query : Queries α) :
    (createImageView.write clip crop image inner query false).width
        = (containClip inner.width inner.height (effectiveAspectRatio crop image query)
            (initialClipHeight crop image inner query)).1 ∧
    (createImageView.write clip crop image inner query false).height
        = (containClip inner.width inner.height (effectiveAspectRatio crop image query)
            (initialClipHeight crop image inner query)).2 := by
  obtain ⟨fx, mn, mx, p, am⟩ := query
  simp only [createImageView.write, effectiveAspectRatio, initialClipHeight, containClip,
    Bool.false_eq_true, if_false]
  cases p with
  | none => cases fx <;> exact ⟨rfl, rfl⟩
  | some p =>
    by_cases hp : p ≠ 0 ∧ am = false
    · simp only [hp, if_true, and_self, ne_eq, not_false_eq_true]
    · simp only [hp, if_false]
      cases fx <;> simp only [and_self]

theorem containClip_le (cw ch ar h0 : α) (har : 0 < ar) :
    (containClip cw ch ar h0).1 ≤ cw ∧ (containClip cw ch ar h0).2 ≤ ch := by
  unfold containClip
  simp only []
  split_ifs with h1 h2 h2
  · exact ⟨by rw [div_le_iff₀ har]; exact h2.le, le_refl _⟩
  · exact ⟨le_refl _, not_lt.mp h2⟩
  · refine ⟨?_, le_refl _⟩
    have : h0 / ar ≤ cw := not_lt.mp h1
    exact (div_le_div_of_nonneg_right h2.le har.le).trans this
  · exact ⟨not_lt.mp h1, not_lt.mp h2⟩

theorem containClip_ratio (cw ch ar h0 : α) (har : ar ≠ 0) :
    (containClip cw ch ar h0).2 = (containClip cw ch ar h0).1 * ar := by
  unfold containClip
  simp only []
  split_ifs
  · exact (div_mul_cancel₀ ch har).symm
  · rfl
  · exact (div_mul_cancel₀ ch har).symm
  · exact (div_mul_cancel₀ h0 har).symm

/-- For a positive aspect ratio the written clip height is the least of the initial clip
height, `containerWidth * aspectRatio` and the container height. -/
theorem containClip_height (cw ch ar h0 : α) (har : 0 < ar) :
    (containClip cw ch ar h0).2 = min (min h0 (cw * ar)) ch := by
  unfold containClip
  simp only []
  have key : h0 / ar > cw ↔ cw * ar < h0 := by
    rw [gt_iff_lt, lt_div_iff₀ har]
  split_ifs with h1 h2 h2
  · rw [min_eq_right (key.mp h1).le, min_eq_right h2.le]
  · rw [min_eq_right (key.mp h1).le, min_eq_left (not_lt.mp h2)]
  · rw [min_eq_left (not_lt.mp (mt key.mpr h1)), min_eq_right h2.le]
  · rw [min_eq_left (not_lt.mp (mt key.mpr h1)), min_eq_left (not_lt.mp h2)]

/-- C2: for every container and every aspect ratio `ar > 0`, the rect returned by
`getCenteredCropRect` lies inside the container and is centred in it. Positivity of the
container is not needed. -/
theorem C2_getCenteredCropRect_contained_centred (container : Size α) (ar : α) (har : 0 < ar) :
    0 ≤ (getCenteredCropRect container ar).x ∧
    0 ≤ (getCenteredCropRect container ar).y ∧
    (getCenteredCropRect container ar).x + (getCenteredCropRect container ar).width
      ≤ container.width ∧
    (getCenteredCropRect container ar).y + (getCenteredCropRect container ar).height
      ≤ container.height ∧
    (getCenteredCropRect container ar).x + (getCenteredCropRect container ar).width / 2
      = container.width / 2 ∧
    (getCenteredCropRect container ar).y + (getCenteredCropRect container ar).height / 2
      = container.height / 2 := by
  unfold getCenteredCropRect
  simp only []
  split_ifs with h
  · have hlt : container.height / ar < container.width := by
      rw [div_lt_iff₀ har]; exact h
    simp only []
    refine ⟨by linarith, by linarith, by linarith, by linarith, by ring, by ring⟩
  · have hle : container.width * ar ≤ container.height := not_lt.mp h
    simp only []
    refine ⟨by linarith, by linarith, by linarith, by linarith, by ring, by ring⟩

/-- C2 at the container `{width: 400, height: 300}` and aspect ratio `2`. -/
theorem C2_getCenteredCropRect_contained_centred_witness :
    (0 : ℚ) < 2 ∧
    (getCenteredCropRect (⟨400, 300⟩ : Size ℚ) 2).x = 125 ∧
    (getCenteredCropRect (⟨400, 300⟩ : Size ℚ) 2).width = 150 ∧
    (getCenteredCropRect (⟨400, 300⟩ : Size ℚ) 2).x
      + (getCenteredCropRect (⟨400, 300⟩ : Size ℚ) 2).width ≤ 400 :=
  ⟨by norm_num, by norm_num [getCenteredCropRect], by norm_num [getCenteredCropRect],
    (C2_getCenteredCropRect_contained_centred (⟨400, 300⟩ : Size ℚ) 2 (by norm_num)).2.2.1⟩

/-- C3: for every container and every aspect ratio `ar > 0`, the rect returned by
`getCenteredCropRect` has `height = width * ar`, fits in the container
(`width ≤ container.width` and `height ≤ container.height`), has the container width or the
container height, and is the largest such rectangle: every `w`, `h` with `h = w * ar`,
`w ≤ container.width` and `h ≤ container.height` satisfies `w ≤ width` and `h ≤ height`. -/
theorem C3_getCenteredCropRect_largest (container : Size α) (ar : α) (har : 0 < ar) :
    (getCenteredCropRect container ar).height = (getCenteredCropRect container ar).width * ar ∧
    (getCenteredCropRect container ar).width ≤ container.width ∧
    (getCenteredCropRect container ar).height ≤ container.height ∧
    ((getCenteredCropRect container ar).width = container.width ∨
      (getCenteredCropRect container ar).height = container.height) ∧
    ∀ w h : α, h = w * ar → w ≤ container.width → h ≤ container.height →
      w ≤ (getCenteredCropRect container ar).width ∧
      h ≤ (getCenteredCropRect container ar).height := by
  unfold getCenteredCropRect
  simp only []
  split_ifs with hgt
  · have hlt : container.height / ar < container.width := by
      rw [div_lt_iff₀ har]; exact hgt
    refine ⟨(div_mul_cancel₀ _ har.ne.symm).symm, hlt.le, le_refl _, Or.inr rfl, ?_⟩
    intro w h hwh _ hh
    refine ⟨?_, hh⟩
    rw [le_div_iff₀ har, ← hwh]
    exact hh
  · refine ⟨rfl, le_refl _, not_lt.mp hgt, Or.inl rfl, ?_⟩
    intro w h hwh hw _
    refine ⟨hw, ?_⟩
    rw [hwh]
    exact mul_le_mul_of_nonneg_right hw har.le

/-- C3 at the container `{width: 100, height: 300}` and aspect ratio `1` (the width decides:
the result is 100 x 100, inside the container), with the result at the container
`{width: 400, height: 300}` and aspect ratio `2` (the height decides: 150 x 300). -/
theorem C3_getCenteredCropRect_largest_witness :
    (0 : ℚ) < 1 ∧
    (getCenteredCropRect (⟨100, 300⟩ : Size ℚ) 1).width = 100 ∧
    (getCenteredCropRect (⟨100, 300⟩ : Size ℚ) 1).height = 100 ∧
    (getCenteredCropRect (⟨400, 300⟩ : Size ℚ) 2).width = 150 ∧
    (getCenteredCropRect (⟨400, 300⟩ : Size ℚ) 2).height = 300 ∧
    (getCenteredCropRect (⟨100, 300⟩ : Size ℚ) 1).height
      = (getCenteredCropRect (⟨100, 300⟩ : Size ℚ) 1).width * 1 ∧
    (getCenteredCropRect (⟨100, 300⟩ : Size ℚ) 1).width ≤ (⟨100, 300⟩ : Size ℚ).width ∧
    (getCenteredCropRect (⟨100, 300⟩ : Size ℚ) 1).height ≤ (⟨100, 300⟩ : Size ℚ).height :=
  ⟨by norm_num, by norm_num [getCenteredCropRect], by norm_num [getCenteredCropRect],
    by norm_num [getCenteredCropRect], by norm_num [getCenteredCropRect],
    (C3_getCenteredCropRect_largest (⟨100, 300⟩ : Size ℚ) 1 (by norm_num)).1,
    (C3_getCenteredCropRect_largest (⟨100, 300⟩ : Size ℚ) 1 (by norm_num)).2.1,
    (C3_getCenteredCropRect_largest (⟨100, 300⟩ : Size ℚ) 1 (by norm_num)).2.2.1⟩

/-- C4: for every container, every configuration (fixed height present or absent, any min and
max height, panel override active or not) and every positive effective aspect ratio, the clip
size written by `createImageView.write` when not optimizing satisfies
`clip.width ≤ containerWidth` and `clip.height ≤ containerHeight`. -/
theorem C4_write_within_container (clip : ClipView α) (crop : Crop α) (image inner : Size α)
    (query : Queries α) (har : 0 < effectiveAspectRatio crop image query) :
    (createImageView.write clip crop image inner query false).width ≤ inner.width ∧
    (createImageView.write clip crop image inner query false).height ≤ inner.height := by
  rw [(write_size clip crop image inner query).1, (write_size clip crop image inner query).2]
  exact containClip_le _ _ _ _ har

/-- C4 at an image of 200 x 100 in a container of 100 x 10: the clip is 20 x 10. -/
theorem C4_write_within_container_witness :
    (0 : ℚ) < effectiveAspectRatio (sampleCrop none) ⟨200, 100⟩ sampleQueries ∧
    (createImageView.write sampleClip (sampleCrop none) (⟨200, 100⟩ : Size ℚ) ⟨100, 10⟩
      sampleQueries false).width = 20 ∧
    (createImageView.write sampleClip (sampleCrop none) (⟨200, 100⟩ : Size ℚ) ⟨100, 10⟩
      sampleQueries false).height = 10 ∧
    (createImageView.write sampleClip (sampleCrop none) (⟨200, 100⟩ : Size ℚ) ⟨100, 10⟩
      sampleQueries false).width ≤ 100 :=
  ⟨by norm_num [effectiveAspectRatio, sampleCrop, sampleQueries, jsOr],
    by norm_num [createImageView.write, sampleClip, sampleCrop, sampleQueries, jsOr],
    by norm_num [createImageView.write, sampleClip, sampleCrop, sampleQueries, jsOr],
    (C4_write_within_container sampleClip (sampleCrop none) (⟨200, 100⟩ : Size ℚ) ⟨100, 10⟩
      sampleQueries
      (by norm_num [effectiveAspectRatio, sampleCrop, sampleQueries, jsOr])).1⟩

/-- Without a panel override the effective aspect ratio is
`crop.aspectRatio || image.height / image.width` and, without a fixed height, the initial clip
height is `max minHeight (min (containerWidth * aspectRatio) maxHeight)`. -/
theorem no_override (crop : Crop α) (image inner : Size α) (query : Queries α)
    (hfix : query.GET_IMAGE_PREVIEW_HEIGHT = none) (hpan : panelOverride query = false) :
    effectiveAspectRatio crop image query = jsOr crop.aspectRatio (image.height / image.width) ∧
    initialClipHeight crop image inner query
      = max query.GET_IMAGE_PREVIEW_MIN_HEIGHT
          (min (inner.width * jsOr crop.aspectRatio (image.height / image.width))
            query.GET_IMAGE_PREVIEW_MAX_HEIGHT) := by
  obtain ⟨fx, mn, mx, p, am⟩ := query
  simp only at hfix
  subst hfix
  cases p with
  | none => exact ⟨rfl, rfl⟩
  | some p =>
    have hp : ¬ (p ≠ 0 ∧ am = false) := by
      rintro ⟨h1, h2⟩
      simp [panelOverride, truthy, h1, h2] at hpan
    simp only [effectiveAspectRatio, initialClipHeight, hp, if_false, and_self]

/-- C7 fails: in a container of 100 x 10 with aspect ratio `1`, no fixed height, no panel
override, minimum height `44` and maximum height `256`, the clip height is `10`, below the
minimum. -/
theorem C7_counterexample :
    (0 : ℚ) < (⟨100, 10⟩ : Size ℚ).width ∧ (0 : ℚ) < (⟨100, 10⟩ : Size ℚ).height ∧
    (0 : ℚ) < effectiveAspectRatio (sampleCrop (some 1)) ⟨200, 100⟩ sampleQueries ∧
    (sampleQueries : Queries ℚ).GET_IMAGE_PREVIEW_HEIGHT = none ∧
    panelOverride (sampleQueries : Queries ℚ) = false ∧
    (sampleQueries : Queries ℚ).GET_IMAGE_PREVIEW_MIN_HEIGHT
      ≤ (sampleQueries : Queries ℚ).GET_IMAGE_PREVIEW_MAX_HEIGHT ∧
    (createImageView.write sampleClip (sampleCrop (some 1)) (⟨200, 100⟩ : Size ℚ) ⟨100, 10⟩
      sampleQueries false).height = 10 ∧
    ¬ ((sampleQueries : Queries ℚ).GET_IMAGE_PREVIEW_MIN_HEIGHT
        ≤ (createImageView.write sampleClip (sampleCrop (some 1)) (⟨200, 100⟩ : Size ℚ)
            ⟨100, 10⟩ sampleQueries false).height ∧
      (createImageView.write sampleClip (sampleCrop (some 1)) (⟨200, 100⟩ : Size ℚ)
            ⟨100, 10⟩ sampleQueries false).height
        ≤ (sampleQueries : Queries ℚ).GET_IMAGE_PREVIEW_MAX_HEIGHT) := by
  have hh : (createImageView.write sampleClip (sampleCrop (some 1)) (⟨200, 100⟩ : Size ℚ)
      ⟨100, 10⟩ sampleQueries false).height = 10 := by
    norm_num [createImageView.write, sampleClip, sampleCrop, sampleQueries, jsOr]
  refine ⟨by norm_num, by norm_num,
    by norm_num [effectiveAspectRatio, sampleCrop, sampleQueries, jsOr], rfl,
    by simp [panelOverride, sampleQueries, truthy], by norm_num [sampleQueries], hh, ?_⟩
  rw [hh]
  norm_num [sampleQueries]

/-- C7, amended: with no fixed height, no panel override, `minHeight ≤ maxHeight` and a
positive effective aspect ratio `ar`, the clip height written by `createImageView.write` is
the least of `max minHeight (min (containerWidth * ar) maxHeight)`, `containerWidth * ar` and
`containerHeight`; it is at most `maxHeight`, and it is at least `minHeight` when
`minHeight ≤ containerWidth * ar` and `minHeight ≤ containerHeight`. -/
theorem C7_write_height_bounds (clip : ClipView α) (crop : Crop α) (image inner : Size α)
    (query : Queries α)
    (hfix : query.GET_IMAGE_PREVIEW_HEIGHT = none) (hpan : panelOverride query = false)
    (hmm : query.GET_IMAGE_PREVIEW_MIN_HEIGHT ≤ query.GET_IMAGE_PREVIEW_MAX_HEIGHT)
    (har : 0 < effectiveAspectRatio crop image query) :
    (createImageView.write clip crop image inner query false).height
      = min (min (max query.GET_IMAGE_PREVIEW_MIN_HEIGHT
                (min (inner.width * effectiveAspectRatio crop image query)
                  query.GET_IMAGE_PREVIEW_MAX_HEIGHT))
              (inner.width * effectiveAspectRatio crop image query))
            inner.height ∧
    (createImageView.write clip crop image inner query false).height
      ≤ query.GET_IMAGE_PREVIEW_MAX_HEIGHT ∧
    (query.GET_IMAGE_PREVIEW_MIN_HEIGHT ≤ inner.width * effectiveAspectRatio crop image query →
      query.GET_IMAGE_PREVIEW_MIN_HEIGHT ≤ inner.height →
      query.GET_IMAGE_PREVIEW_MIN_HEIGHT
        ≤ (createImageView.write clip crop image inner query false).height) := by
  have heq : (createImageView.write clip crop image inner query false).height
      = min (min (max query.GET_IMAGE_PREVIEW_MIN_HEIGHT
                (min (inner.width * effectiveAspectRatio crop image query)
                  query.GET_IMAGE_PREVIEW_MAX_HEIGHT))
              (inner.width * effectiveAspectRatio crop image query))
            inner.height := by
    rw [(write_size clip crop image inner query).2, containClip_height _ _ _ _ har,
      (no_override crop image inner query hfix hpan).2,
      (no_override crop image inner query hfix hpan).1]
  refine ⟨heq, ?_, ?_⟩
  · rw [heq]
    exact (min_le_left _ _).trans ((min_le_left _ _).trans
      (max_le hmm (min_le_right _ _)))
  · intro h1 h2
    rw [heq]
    exact le_min (le_min (le_max_left _ _) h1) h2

/-- C7 (amended) at an image of 200 x 100 in a container of 800 x 600 with crop aspect
ratio `1`: the clip height is `256`. -/
theorem C7_write_height_bounds_witness :
    (sampleQueries : Queries ℚ).GET_IMAGE_PREVIEW_HEIGHT = none ∧
    panelOverride (sampleQueries : Queries ℚ) = false ∧
    (0 : ℚ) < effectiveAspectRatio (sampleCrop (some 1)) ⟨200, 100⟩ sampleQueries ∧
    (createImageView.write sampleClip (sampleCrop (some 1)) (⟨200, 100⟩ : Size ℚ) ⟨800, 600⟩
      sampleQueries false).height = 256 ∧
    (createImageView.write sampleClip (sampleCrop (some 1)) (⟨200, 100⟩ : Size ℚ) ⟨800, 600⟩
      sampleQueries false).height ≤ (sampleQueries : Queries ℚ).GET_IMAGE_PREVIEW_MAX_HEIGHT :=
  ⟨rfl, by simp [panelOverride, sampleQueries, truthy],
    by norm_num [effectiveAspectRatio, sampleCrop, sampleQueries, jsOr],
    by norm_num [createImageView.write, sampleClip, sampleCrop, sampleQueries, jsOr],
    (C7_write_height_bounds sampleClip (sampleCrop (some 1)) (⟨200, 100⟩ : Size ℚ) ⟨800, 600⟩
      sampleQueries rfl (by simp [panelOverride, sampleQueries, truthy])
      (by norm_num [sampleQueries])
      (by norm_num [effectiveAspectRatio, sampleCrop, sampleQueries, jsOr])).2.1⟩

/-- C8: for every container, every configuration and every nonzero effective aspect ratio `ar`
(the panel aspect ratio when the override is active, otherwise
`crop.aspectRatio || image.height / image.width`), the clip size written by
`createImageView.write` when not optimizing satisfies `clip.height = clip.width * ar`. -/
theorem C8_write_aspect_ratio (clip : ClipView α) (crop : Crop α) (image inner : Size α)
    (query : Queries α) (har : effectiveAspectRatio crop image query ≠ 0) :
    (createImageView.write clip crop image inner query false).height
      = (createImageView.write clip crop image inner query false).width
          * effectiveAspectRatio crop image query := by
  rw [(write_size clip crop image inner query).1, (write_size clip crop image inner query).2]
  exact containClip_ratio _ _ _ _ har

/-- C8 at an image of 200 x 100 in a container of 100 x 10 (height adjustment fires): the clip
is 20 x 10 and the effective aspect ratio is `1/2`. -/
theorem C8_write_aspect_ratio_witness :
    effectiveAspectRatio (sampleCrop none) (⟨200, 100⟩ : Size ℚ) sampleQueries = 1 / 2 ∧
    effectiveAspectRatio (sampleCrop none) (⟨200, 100⟩ : Size ℚ) sampleQueries ≠ 0 ∧
    (createImageView.write sampleClip (sampleCrop none) (⟨200, 100⟩ : Size ℚ) ⟨100, 10⟩
      sampleQueries false).height
      = (createImageView.write sampleClip (sampleCrop none) (⟨200, 100⟩ : Size ℚ) ⟨100, 10⟩
          sampleQueries false).width
          * effectiveAspectRatio (sampleCrop none) (⟨200, 100⟩ : Size ℚ) sampleQueries :=
  ⟨by norm_num [effectiveAspectRatio, sampleCrop, sampleQueries, jsOr],
    by norm_num [effectiveAspectRatio, sampleCrop, sampleQueries, jsOr],
    C8_write_aspect_ratio sampleClip (sampleCrop none) (⟨200, 100⟩ : Size ℚ) ⟨100, 10⟩
      sampleQueries (by norm_num [effectiveAspectRatio, sampleCrop, sampleQueries, jsOr])⟩

end Viewport

section Transform

/-- The truncating remainder by a positive modulus lies strictly between `-n` and `n`. -/
theorem jsRem_bounds {α : Type} [LinearOrderedField α] [FloorRing α] (a n : α) (hn : 0 < n) :
    -n < jsRem a n ∧ jsRem a n < n := by
  unfold jsRem jsTrunc
  split_ifs with h
  · have e : a - n * ((Int.floor (a / n) : ℤ) : α) = n * (a / n - (Int.floor (a / n) : α)) := by
      field_simp
    have h1 : ((Int.floor (a / n) : ℤ) : α) ≤ a / n := Int.floor_le _
    have h2 : a / n < (Int.floor (a / n) : α) + 1 := Int.lt_floor_add_one _
    rw [e]
    constructor
    · have : 0 ≤ n * (a / n - (Int.floor (a / n) : α)) := mul_nonneg hn.le (by linarith)
      linarith
    · have : n * (a / n - (Int.floor (a / n) : α)) < n * 1 :=
        mul_lt_mul_of_pos_left (by linarith) hn
      linarith
  · have e : a - n * ((Int.ceil (a / n) : ℤ) : α) = -(n * ((Int.ceil (a / n) : α) - a / n)) := by
      field_simp
      ring
    have h1 : a / n ≤ ((Int.ceil (a / n) : ℤ) : α) := Int.le_ceil _
    have h2 : ((Int.ceil (a / n) : ℤ) : α) < a / n + 1 := Int.ceil_lt_add_one _
    rw [e]
    constructor
    · have : n * ((Int.ceil (a / n) : α) - a / n) < n * 1 :=
        mul_lt_mul_of_pos_left (by linarith) hn
      linarith
    · have : 0 ≤ n * ((Int.ceil (a / n) : α) - a / n) := mul_nonneg hn.le (by linarith)
      linarith

/-- The rotation emitted by `createClipView.write` when not optimizing. -/
theorem write_rotateZ {α : Type} [LinearOrderedField α] [FloorRing α] (M : JSMath α)
    (imageView : ImageCanvasWrapper α) (props : ClipProps α) :
    (createClipView.write M imageView props false).rotateZ
      = some (M.PI * 2 + jsRem props.crop.rotation (M.PI * 2)) := by
  simp [createClipView.write]

/-- C5 fails: for `crop.rotation = 0` the emitted `rotateZ` is `2π`, which is not below
`2π`. -/
theorem C5_counterexample :
    (createClipView.write ⟨Real.sin, Real.cos, Real.sqrt, Real.pi, Real.pi / 2⟩
      (sampleImageView 200 100) ⟨sampleCrop none, 100, 100⟩ false).rotateZ
      = some (2 * Real.pi) ∧
    ¬ ((0 : ℝ) ≤ 2 * Real.pi ∧ 2 * Real.pi < 2 * Real.pi) := by
  constructor
  · rw [write_rotateZ]
    simp [jsRem, jsTrunc, sampleCrop, mul_comm]
  · exact fun h => lt_irrefl _ h.2

/-- C5, amended: for every real `crop.rotation`, the `rotateZ` that `createClipView.write`
assigns when not optimizing is `2π + (crop.rotation % 2π)` and satisfies
`0 < rotateZ < 4π`. -/
theorem C5_rotateZ_range (imageView : ImageCanvasWrapper ℝ) (props : ClipProps ℝ) :
    (createClipView.write ⟨Real.sin, Real.cos, Real.sqrt, Real.pi, Real.pi / 2⟩
      imageView props false).rotateZ
      = some (Real.pi * 2 + jsRem props.crop.rotation (Real.pi * 2)) ∧
    0 < Real.pi * 2 + jsRem props.crop.rotation (Real.pi * 2) ∧
    Real.pi * 2 + jsRem props.crop.rotation (Real.pi * 2) < 4 * Real.pi := by
  have hpos : (0 : ℝ) < Real.pi * 2 := by positivity
  obtain ⟨h1, h2⟩ := jsRem_bounds props.crop.rotation (Real.pi * 2) hpos
  exact ⟨write_rotateZ _ _ _, by linarith, by linarith⟩

/-- C9: with `shouldOptimize` set, `createClipView.write` assigns `null` to all seven
transform fields of the image view, for every crop, image size and stage size. -/
theorem C9_write_optimize_null {α : Type} [LinearOrderedField α] [FloorRing α] (M : JSMath α)
    (imageView : ImageCanvasWrapper α) (props : ClipProps α) :
    (createClipView.write M imageView props true).originX = none ∧
    (createClipView.write M imageView props true).originY = none ∧
    (createClipView.write M imageView props true).translateX = none ∧
    (createClipView.write M imageView props true).translateY = none ∧
    (createClipView.write M imageView props true).rotateZ = none ∧
    (createClipView.write M imageView props true).scaleX = none ∧
    (createClipView.write M imageView props true).scaleY = none := by
  simp [createClipView.write]

/-- The zoom factor is the larger of the two ratios of the rotated crop size to the effective
image size. -/
theorem zoomFactor_eq {α : Type} [LinearOrderedField α] (M : JSMath α) (imageRect : Size α)
    (cropRect : Rect α) (rotation : α) (center : Vec α) :
    getImageRectZoomFactor M imageRect cropRect rotation center
      = max ((getRotatedRectSize M cropRect rotation).width / effectiveImageWidth imageRect center)
          ((getRotatedRectSize M cropRect rotation).height
            / effectiveImageHeight imageRect center) := rfl

theorem effectiveImageWidth_pos {α : Type} [LinearOrderedField α] (imageRect : Size α)
    (center : Vec α) (hw : 0 < imageRect.width) (h0 : 0 < center.x) (h1 : center.x < 1) :
    0 < effectiveImageWidth imageRect center := by
  unfold effectiveImageWidth
  split_ifs
  · exact mul_pos (mul_pos (by linarith) (by norm_num)) hw
  · exact mul_pos (mul_pos h0 (by norm_num)) hw

theorem effectiveImageHeight_pos {α : Type} [LinearOrderedField α] (imageRect : Size α)
    (center : Vec α) (hh : 0 < imageRect.height) (h0 : 0 < center.y) (h1 : center.y < 1) :
    0 < effectiveImageHeight imageRect center := by
  unfold effectiveImageHeight
  split_ifs
  · exact mul_pos (mul_pos (by linarith) (by norm_num)) hh
  · exact mul_pos (mul_pos h0 (by norm_num)) hh

/-- The larger of `a / e` and `b / f`, for positive `e` and `f`, is the least `s` with
`a ≤ s * e` and `b ≤ s * f`, and meets one of the two bounds. -/
theorem max_div_least {α : Type} [LinearOrderedField α] (a b e f : α) (he : 0 < e)
    (hf : 0 < f) :
    a ≤ max (a / e) (b / f) * e ∧ b ≤ max (a / e) (b / f) * f ∧
    (∀ s : α, a ≤ s * e → b ≤ s * f → max (a / e) (b / f) ≤ s) ∧
    (max (a / e) (b / f) * e = a ∨ max (a / e) (b / f) * f = b) := by
  refine ⟨?_, ?_, ?_, ?_⟩
  · rw [← div_le_iff₀ he]; exact le_max_left _ _
  · rw [← div_le_iff₀ hf]; exact le_max_right _ _
  · intro s h1 h2
    exact max_le ((div_le_iff₀ he).mpr h1) ((div_le_iff₀ hf).mpr h2)
  · rcases le_total (a / e) (b / f) with h | h
    · right; rw [max_eq_right h]; exact div_mul_cancel₀ b hf.ne.symm
    · left; rw [max_eq_left h]; exact div_mul_cancel₀ a he.ne.symm

/-- C10: for every positive image size, every crop rect, every rotation and every centre
strictly inside `(0,1) x (0,1)`, the factor `z = getImageRectZoomFactor image cropRect rotation
center` satisfies `z * effectiveImageWidth ≥ rotatedCrop.width` and
`z * effectiveImageHeight ≥ rotatedCrop.height`, every `s` satisfying both inequalities has
`s ≥ z`, and equality holds on at least one axis. -/
theorem C10_zoomFactor_minimal (image : Size ℝ) (cropRect : Rect ℝ) (rotation : ℝ)
    (center : Vec ℝ) (hw : 0 < image.width) (hh : 0 < image.height)
    (hx0 : 0 < center.x) (hx1 : center.x < 1) (hy0 : 0 < center.y) (hy1 : center.y < 1) :
    (getRotatedRectSize ⟨Real.sin, Real.cos, Real.sqrt, Real.pi, Real.pi / 2⟩ cropRect
        rotation).width
      ≤ getImageRectZoomFactor ⟨Real.sin, Real.cos, Real.sqrt, Real.pi, Real.pi / 2⟩ image
          cropRect rotation center * effectiveImageWidth image center ∧
    (getRotatedRectSize ⟨Real.sin, Real.cos, Real.sqrt, Real.pi, Real.pi / 2⟩ cropRect
        rotation).height
      ≤ getImageRectZoomFactor ⟨Real.sin, Real.cos, Real.sqrt, Real.pi, Real.pi / 2⟩ image
          cropRect rotation center * effectiveImageHeight image center ∧
    (∀ s : ℝ,
      (getRotatedRectSize ⟨Real.sin, Real.cos, Real.sqrt, Real.pi, Real.pi / 2⟩ cropRect
          rotation).width ≤ s * effectiveImageWidth image center →
      (getRotatedRectSize ⟨Real.sin, Real.cos, Real.sqrt, Real.pi, Real.pi / 2⟩ cropRect
          rotation).height ≤ s * effectiveImageHeight image center →
      getImageRectZoomFactor ⟨Real.sin, Real.cos, Real.sqrt, Real.pi, Real.pi / 2⟩ image
          cropRect rotation center ≤ s) ∧
    (getImageRectZoomFactor ⟨Real.sin, Real.cos, Real.sqrt, Real.pi, Real.pi / 2⟩ image
          cropRect rotation center * effectiveImageWidth image center
        = (getRotatedRectSize ⟨Real.sin, Real.cos, Real.sqrt, Real.pi, Real.pi / 2⟩ cropRect
            rotation).width ∨
      getImageRectZoomFactor ⟨Real.sin, Real.cos, Real.sqrt, Real.pi, Real.pi / 2⟩ image
          cropRect rotation center * effectiveImageHeight image center
        = (getRotatedRectSize ⟨Real.sin, Real.cos, Real.sqrt, Real.pi, Real.pi / 2⟩ cropRect
            rotation).height) := by
  rw [zoomFactor_eq]
  exact max_div_least _ _ _ _ (effectiveImageWidth_pos image center hw hx0 hx1)
    (effectiveImageHeight_pos image center hh hy0 hy1)

/-- C10 at an image of 200 x 100, the crop rect `{0, 0, 100, 50}`, rotation `1` and centre
`(3/4, 1/4)`: the effective image size is 100 x 50 and the factor covers the rotated crop
width. -/
theorem C10_zoomFactor_minimal_witness :
    effectiveImageWidth (⟨200, 100⟩ : Size ℝ) ⟨3 / 4, 1 / 4⟩ = 100 ∧
    effectiveImageHeight (⟨200, 100⟩ : Size ℝ) ⟨3 / 4, 1 / 4⟩ = 50 ∧
    (getRotatedRectSize ⟨Real.sin, Real.cos, Real.sqrt, Real.pi, Real.pi / 2⟩
        (⟨0, 0, 100, 50⟩ : Rect ℝ) 1).width
      ≤ getImageRectZoomFactor ⟨Real.sin, Real.cos, Real.sqrt, Real.pi, Real.pi / 2⟩
          (⟨200, 100⟩ : Size ℝ) ⟨0, 0, 100, 50⟩ 1 ⟨3 / 4, 1 / 4⟩
        * effectiveImageWidth (⟨200, 100⟩ : Size ℝ) ⟨3 / 4, 1 / 4⟩ :=
  ⟨by norm_num [effectiveImageWidth], by norm_num [effectiveImageHeight],
    (C10_zoomFactor_minimal (⟨200, 100⟩ : Size ℝ) ⟨0, 0, 100, 50⟩ 1 ⟨3 / 4, 1 / 4⟩
      (by norm_num) (by norm_num) (by norm_num) (by norm_num) (by norm_num) (by norm_num)).1⟩

/-- The scale emitted by `createClipView.write` when not optimizing. -/
theorem write_scale {α : Type} [LinearOrderedField α] [FloorRing α] (M : JSMath α)
    (imageView : ImageCanvasWrapper α) (props : ClipProps α) :
    (createClipView.write M imageView props false).scaleX
      = some (props.crop.zoom * getImageRectZoomFactor M ⟨imageView.width, imageView.height⟩
          (getCenteredCropRect ⟨props.width, props.height⟩
            (jsOr props.crop.aspectRatio (imageView.height / imageView.width)))
          (M.PI * 2 + jsRem props.crop.rotation (M.PI * 2)) props.crop.center) ∧
    (createClipView.write M imageView props false).scaleY
      = (createClipView.write M imageView props false).scaleX := by
  simp [createClipView.write]

/-- On a square image of side `n` and a square stage of side `s`, with rotation `0`, zoom `1`,
centre `(1/2, 1/2)` and crop aspect ratio absent or `1`, the emitted scale is `s / n`. -/
theorem square_scale (imageView : ImageCanvasWrapper ℝ) (props : ClipProps ℝ) (n s : ℝ)
    (hn : 0 < n) (hs : 0 < s)
    (hiw : imageView.width = n) (hih : imageView.height = n)
    (hpw : props.width = s) (hph : props.height = s)
    (hrot : props.crop.rotation = 0) (hzoom : props.crop.zoom = 1)
    (hcx : props.crop.center.x = 1 / 2) (hcy : props.crop.center.y = 1 / 2)
    (har : props.crop.aspectRatio = none ∨ props.crop.aspectRatio = some 1) :
    (createClipView.write ⟨Real.sin, Real.cos, Real.sqrt, Real.pi, Real.pi / 2⟩
      imageView props false).scaleX = some (s / n) ∧
    (createClipView.write ⟨Real.sin, Real.cos, Real.sqrt, Real.pi, Real.pi / 2⟩
      imageView props false).scaleY = some (s / n) := by
  have hrem : jsRem (0 : ℝ) (Real.pi * 2) = 0 := by simp [jsRem, jsTrunc]
  have hratio : jsOr props.crop.aspectRatio (imageView.height / imageView.width) = 1 := by
    rcases har with h | h
    · rw [h, hiw, hih]; simp [jsOr, hn.ne.symm]
    · rw [h]; simp [jsOr]
  have hrect : getCenteredCropRect (⟨s, s⟩ : Size ℝ) 1 = ⟨0, 0, s, s⟩ := by
    simp [getCenteredCropRect]
  have hX : (createClipView.write ⟨Real.sin, Real.cos, Real.sqrt, Real.pi, Real.pi / 2⟩
      imageView props false).scaleX = some (s / n) := by
    rw [(write_scale _ imageView props).1, hratio, hpw, hph, hrect, hrot, hrem, hzoom,
      zoomFactor_eq, rotated_width_eq 0 0 s s _ hs.le hs.le,
      rotated_height_eq 0 0 s s _ hs.le hs.le]
    simp only [effectiveImageWidth, effectiveImageHeight, hcx, hcy, hiw, hih, add_zero,
      mul_comm Real.pi 2, Real.cos_two_pi, Real.sin_two_pi, abs_one, abs_zero, mul_one,
      mul_zero, zero_add, gt_iff_lt, lt_irrefl, if_false, max_self, one_mul]
    congr 1
    field_simp
  exact ⟨hX, (write_scale _ imageView props).2.trans hX⟩

/-- C6 fails: a square image of side 200 on a square stage of side 100, with rotation `0`,
zoom `1`, centre `(1/2, 1/2)` and no crop aspect ratio, is emitted with scale `1/2`. -/
theorem C6_counterexample :
    (createClipView.write ⟨Real.sin, Real.cos, Real.sqrt, Real.pi, Real.pi / 2⟩
      (sampleImageView 200 200) ⟨sampleCrop none, 100, 100⟩ false).scaleX = some (1 / 2) ∧
    (createClipView.write ⟨Real.sin, Real.cos, Real.sqrt, Real.pi, Real.pi / 2⟩
      (sampleImageView 200 200) ⟨sampleCrop none, 100, 100⟩ false).scaleX ≠ some 1 := by
  have h := (square_scale (sampleImageView 200 200) ⟨sampleCrop none, 100, 100⟩ 200 100
    (by norm_num) (by norm_num) rfl rfl rfl rfl rfl rfl rfl rfl (Or.inl rfl)).1
  have e : (100 : ℝ) / 200 = 1 / 2 := by norm_num
  rw [e] at h
  refine ⟨h, ?_⟩
  rw [h]
  intro hc
  have := Option.some.inj hc
  norm_num at this

/-- C6, amended: for every square image of side `n > 0` and every square stage of side
`s > 0`, with `crop.rotation = 0`, `crop.zoom = 1`, `crop.center = (1/2, 1/2)` and a crop
aspect ratio absent or `1`, `createClipView.write` emits `scaleX = scaleY = s / n`, the stage
side over the image side. -/
theorem C6_square_scale (imageView : ImageCanvasWrapper ℝ) (props : ClipProps ℝ) (n s : ℝ)
    (hn : 0 < n) (hs : 0 < s)
    (hiw : imageView.width = n) (hih : imageView.height = n)
    (hpw : props.width = s) (hph : props.height = s)
    (hrot : props.crop.rotation = 0) (hzoom : props.crop.zoom = 1)
    (hcx : props.crop.center.x = 1 / 2) (hcy : props.crop.center.y = 1 / 2)
    (har : props.crop.aspectRatio = none ∨ props.crop.aspectRatio = some 1) :
    (createClipView.write ⟨Real.sin, Real.cos, Real.sqrt, Real.pi, Real.pi / 2⟩
      imageView props false).scaleX = some (s / n) ∧
    (createClipView.write ⟨Real.sin, Real.cos, Real.sqrt, Real.pi, Real.pi / 2⟩
      imageView props false).scaleY = some (s / n) :=
  square_scale imageView props n s hn hs hiw hih hpw hph hrot hzoom hcx hcy har

/-- C6 (amended) at a square image of side 50 on a square stage of side 100 with crop aspect
ratio `1`: the scale is `100 / 50`. -/
theorem C6_square_scale_witness :
    (0 : ℝ) < 50 ∧ (0 : ℝ) < 100 ∧
    (createClipView.write ⟨Real.sin, Real.cos, Real.sqrt, Real.pi, Real.pi / 2⟩
      (sampleImageView 50 50) ⟨sampleCrop (some 1), 100, 100⟩ false).scaleX
      = some ((100 : ℝ) / 50) :=
  ⟨by norm_num, by norm_num,
    (C6_square_scale (sampleImageView 50 50) ⟨sampleCrop (some 1), 100, 100⟩ 50 100
      (by norm_num) (by norm_num) rfl rfl rfl rfl rfl rfl rfl rfl (Or.inr rfl)).1⟩

end Transform

section RotatedRect

/-- Two sizes with the same width and the same height are equal. -/
theorem size_eq_of {α : Type} (a b : Size α) (hw : a.width = b.width)
    (hh : a.height = b.height) : a = b := by
  obtain ⟨aw, ah⟩ := a
  obtain ⟨bw, bh⟩ := b
  simp only at hw hh
  rw [hw, hh]

/-- C11: for every rect with non-negative width and height and every real `t`,
`getRotatedRectSize rect (t + π) = getRotatedRectSize rect t`, in width and in height. -/
theorem C11_getRotatedRectSize_periodic (rect : Rect ℝ) (t : ℝ)
    (hw : 0 ≤ rect.width) (hh : 0 ≤ rect.height) :
    getRotatedRectSize ⟨Real.sin, Real.cos, Real.sqrt, Real.pi, Real.pi / 2⟩ rect (t + Real.pi)
      = getRotatedRectSize ⟨Real.sin, Real.cos, Real.sqrt, Real.pi, Real.pi / 2⟩ rect t := by
  obtain ⟨x, y, w, h⟩ := rect
  apply size_eq_of
  · rw [rotated_width_eq x y w h _ hw hh, rotated_width_eq x y w h _ hw hh,
      Real.sin_add_pi, Real.cos_add_pi, abs_neg, abs_neg]
  · rw [rotated_height_eq x y w h _ hw hh, rotated_height_eq x y w h _ hw hh,
      Real.sin_add_pi, Real.cos_add_pi, abs_neg, abs_neg]

/-- C11 at the rect `{x: 3, y: -2, width: 100, height: 50}` and `t = 1`. -/
theorem C11_getRotatedRectSize_periodic_witness :
    (0 : ℝ) ≤ (⟨3, -2, 100, 50⟩ : Rect ℝ).width ∧ (0 : ℝ) ≤ (⟨3, -2, 100, 50⟩ : Rect ℝ).height ∧
    getRotatedRectSize ⟨Real.sin, Real.cos, Real.sqrt, Real.pi, Real.pi / 2⟩
        ⟨3, -2, 100, 50⟩ (1 + Real.pi)
      = getRotatedRectSize ⟨Real.sin, Real.cos, Real.sqrt, Real.pi, Real.pi / 2⟩
        ⟨3, -2, 100, 50⟩ 1 :=
  ⟨by norm_num, by norm_num,
    C11_getRotatedRectSize_periodic ⟨3, -2, 100, 50⟩ 1 (by norm_num) (by norm_num)⟩

/-- C12: for every rect with non-negative width `w` and height `h`,
`getRotatedRectSize rect (π / 2) = {width: h, height: w}`: a quarter turn swaps the
dimensions. -/
theorem C12_getRotatedRectSize_quarter_turn (rect : Rect ℝ)
    (hw : 0 ≤ rect.width) (hh : 0 ≤ rect.height) :
    getRotatedRectSize ⟨Real.sin, Real.cos, Real.sqrt, Real.pi, Real.pi / 2⟩ rect (Real.pi / 2)
      = { width := rect.height, height := rect.width } := by
  obtain ⟨x, y, w, h⟩ := rect
  apply size_eq_of
  · rw [rotated_width_eq x y w h _ hw hh]
    simp
  · rw [rotated_height_eq x y w h _ hw hh]
    simp

/-- C12 at the rect `{x: 0, y: 0, width: 100, height: 50}`: the result is
`{width: 50, height: 100}`. -/
theorem C12_getRotatedRectSize_quarter_turn_witness :
    getRotatedRectSize ⟨Real.sin, Real.cos, Real.sqrt, Real.pi, Real.pi / 2⟩
        ⟨0, 0, 100, 50⟩ (Real.pi / 2)
      = { width := 50, height := 100 } :=
  C12_getRotatedRectSize_quarter_turn ⟨0, 0, 100, 50⟩ (by norm_num) (by norm_num)

/-- C13: for every rect with non-negative (in particular positive) width and height and any
`x`, `y`, `getRotatedRectSize rect 0 = {width: rect.width, height: rect.height}`. -/
theorem C13_getRotatedRectSize_zero (rect : Rect ℝ)
    (hw : 0 ≤ rect.width) (hh : 0 ≤ rect.height) :
    getRotatedRectSize ⟨Real.sin, Real.cos, Real.sqrt, Real.pi, Real.pi / 2⟩ rect 0
      = { width := rect.width, height := rect.height } := by
  obtain ⟨x, y, w, h⟩ := rect
  apply size_eq_of
  · rw [rotated_width_eq x y w h _ hw hh]
    simp
  · rw [rotated_height_eq x y w h _ hw hh]
    simp

/-- C13 at the rect `{x: 7, y: -4, width: 30, height: 20}`. -/
theorem C13_getRotatedRectSize_zero_witness :
    getRotatedRectSize ⟨Real.sin, Real.cos, Real.sqrt, Real.pi, Real.pi / 2⟩
        ⟨7, -4, 30, 20⟩ 0
      = { width := 30, height := 20 } :=
  C13_getRotatedRectSize_zero ⟨7, -4, 30, 20⟩ (by norm_num) (by norm_num)

end RotatedRect

section ViewportScenarios

variable {α : Type} [LinearOrderedField α]

/-- With `lo ≤ hi` the clamp is the source's `Math.max(lo, Math.min(v, hi))`. -/
theorem clamp_eq_max_min (v lo hi : α) (h : lo ≤ hi) : clamp v lo hi = max lo (min v hi) := by
  unfold clamp
  split_ifs with h1 h2
  · rw [min_eq_left (h1.le.trans h), max_eq_left h1.le]
  · rw [min_eq_right h2.le, max_eq_right h]
  · rw [min_eq_left (not_lt.mp h2), max_eq_right (not_lt.mp h1)]

/-- Without a panel override the effective aspect ratio is
`crop.aspectRatio || image.height / image.width`, whatever the fixed height. -/
theorem no_override_ratio (crop : Crop α) (image : Size α) (query : Queries α)
    (hpan : panelOverride query = false) :
    effectiveAspectRatio crop image query
      = jsOr crop.aspectRatio (image.height / image.width) := by
  obtain ⟨fx, mn, mx, p, am⟩ := query
  cases p with
  | none => rfl
  | some p =>
    have hp : ¬ (p ≠ 0 ∧ am = false) := by
      rintro ⟨h1, h2⟩
      simp [panelOverride, truthy, h1, h2] at hpan
    simp only [effectiveAspectRatio, hp, if_false]

/-- With an active panel override the effective aspect ratio is the panel aspect ratio and the
initial clip height is `containerWidth * panelAspectRatio`. -/
theorem override_active (crop : Crop α) (image inner : Size α) (query : Queries α) (p : α)
    (hp : query.GET_PANEL_ASPECT_RATIO = some p) (hp0 : p ≠ 0)
    (ham : query.GET_ALLOW_MULTIPLE = false) :
    effectiveAspectRatio crop image query = p ∧
    initialClipHeight crop image inner query = inner.width * p := by
  obtain ⟨fx, mn, mx, pa, am⟩ := query
  simp only at hp ham
  subst hp
  subst ham
  simp [effectiveAspectRatio, initialClipHeight, hp0]

/-- C14: when the panel aspect ratio `p > 0` is set and `allowMultiple` is false, for every
container `(cw, ch)` the clip size written by `createImageView.write` does not depend on the
fixed, minimum and maximum height settings nor on the crop or image aspect ratio: it is
`{width: cw, height: cw * p}` if `cw * p ≤ ch` and `{width: ch / p, height: ch}` otherwise. -/
theorem C14_write_panel_override (clip : ClipView α) (crop : Crop α) (image inner : Size α)
    (query : Queries α) (p : α)
    (hp : query.GET_PANEL_ASPECT_RATIO = some p) (hpos : 0 < p)
    (ham : query.GET_ALLOW_MULTIPLE = false) :
    (inner.width * p ≤ inner.height →
      (createImageView.write clip crop image inner query false).width = inner.width ∧
      (createImageView.write clip crop image inner query false).height = inner.width * p) ∧
    (inner.height < inner.width * p →
      (createImageView.write clip crop image inner query false).width = inner.height / p ∧
      (createImageView.write clip crop image inner query false).height = inner.height) := by
  obtain ⟨h1, h2⟩ := override_active crop image inner query p hp hpos.ne.symm ham
  rw [(write_size clip crop image inner query).1, (write_size clip crop image inner query).2,
    h1, h2]
  have hw : inner.width * p / p = inner.width := mul_div_cancel_right₀ _ hpos.ne.symm
  unfold containClip
  simp only [hw, gt_iff_lt, lt_irrefl, if_false]
  constructor
  · intro hle
    rw [if_neg (not_lt.mpr hle)]
    exact ⟨rfl, rfl⟩
  · intro hlt
    rw [if_pos hlt]
    exact ⟨rfl, rfl⟩

/-- C14 at the container `{400, 300}` with panel aspect ratio `1/2` and `allowMultiple`
false: the clip is `{width: 400, height: 200}`. -/
theorem C14_write_panel_override_witness :
    (0 : ℚ) < 1 / 2 ∧ (400 : ℚ) * (1 / 2) ≤ 300 ∧
    (createImageView.write sampleClip (sampleCrop (some 3)) (⟨200, 100⟩ : Size ℚ) ⟨400, 300⟩
      ⟨some 90, 44, 256, some (1 / 2), false⟩ false).width = 400 ∧
    (createImageView.write sampleClip (sampleCrop (some 3)) (⟨200, 100⟩ : Size ℚ) ⟨400, 300⟩
      ⟨some 90, 44, 256, some (1 / 2), false⟩ false).height = 200 := by
  have h := (C14_write_panel_override sampleClip (sampleCrop (some 3)) (⟨200, 100⟩ : Size ℚ)
    ⟨400, 300⟩ ⟨some 90, 44, 256, some (1 / 2), false⟩ (1 / 2) rfl (by norm_num) rfl).1
    (by norm_num)
  refine ⟨by norm_num, by norm_num, h.1, ?_⟩
  rw [h.2]
  norm_num

/-- C15: with no fixed height and no panel override, for every container `(cw, ch)`, effective
aspect ratio `ar > 0` and `minHeight ≤ maxHeight`, let `h = clamp (cw * ar) minHeight
maxHeight`; if `h / ar ≤ cw` and `h ≤ ch` then `createImageView.write` yields exactly
`{width: h / ar, height: h}`. -/
theorem C15_write_clamped (clip : ClipView α) (crop : Crop α) (image inner : Size α)
    (query : Queries α)
    (hfix : query.GET_IMAGE_PREVIEW_HEIGHT = none) (hpan : panelOverride query = false)
    (hmm : query.GET_IMAGE_PREVIEW_MIN_HEIGHT ≤ query.GET_IMAGE_PREVIEW_MAX_HEIGHT)
    (_har : 0 < effectiveAspectRatio crop image query)
    (hw : clamp (inner.width * effectiveAspectRatio crop image query)
        query.GET_IMAGE_PREVIEW_MIN_HEIGHT query.GET_IMAGE_PREVIEW_MAX_HEIGHT
        / effectiveAspectRatio crop image query ≤ inner.width)
    (hh : clamp (inner.width * effectiveAspectRatio crop image query)
        query.GET_IMAGE_PREVIEW_MIN_HEIGHT query.GET_IMAGE_PREVIEW_MAX_HEIGHT ≤ inner.height) :
    (createImageView.write clip crop image inner query false).width
      = clamp (inner.width * effectiveAspectRatio crop image query)
          query.GET_IMAGE_PREVIEW_MIN_HEIGHT query.GET_IMAGE_PREVIEW_MAX_HEIGHT
        / effectiveAspectRatio crop image query ∧
    (createImageView.write clip crop image inner query false).height
      = clamp (inner.width * effectiveAspectRatio crop image query)
          query.GET_IMAGE_PREVIEW_MIN_HEIGHT query.GET_IMAGE_PREVIEW_MAX_HEIGHT := by
  have h0 : initialClipHeight crop image inner query
      = clamp (inner.width * effectiveAspectRatio crop image query)
          query.GET_IMAGE_PREVIEW_MIN_HEIGHT query.GET_IMAGE_PREVIEW_MAX_HEIGHT := by
    rw [clamp_eq_max_min _ _ _ hmm, (no_override crop image inner query hfix hpan).2,
      (no_override crop image inner query hfix hpan).1]
  rw [(write_size clip crop image inner query).1, (write_size clip crop image inner query).2,
    h0]
  unfold containClip
  simp only [gt_iff_lt, if_neg (not_lt.mpr hw), if_neg (not_lt.mpr hh), and_self]

/-- C15 at the container `{800, 600}` with `minHeight = 100`, `maxHeight = 500` and aspect
ratio `1`: the clip is `{width: 500, height: 500}`. -/
theorem C15_write_clamped_witness :
    effectiveAspectRatio (sampleCrop (some 1)) (⟨200, 100⟩ : Size ℚ)
      ⟨none, 100, 500, none, false⟩ = 1 ∧
    clamp ((800 : ℚ) * 1) 100 500 = 500 ∧
    (createImageView.write sampleClip (sampleCrop (some 1)) (⟨200, 100⟩ : Size ℚ) ⟨800, 600⟩
      ⟨none, 100, 500, none, false⟩ false).width = 500 ∧
    (createImageView.write sampleClip (sampleCrop (some 1)) (⟨200, 100⟩ : Size ℚ) ⟨800, 600⟩
      ⟨none, 100, 500, none, false⟩ false).height = 500 := by
  have e : effectiveAspectRatio (sampleCrop (some 1)) (⟨200, 100⟩ : Size ℚ)
      ⟨none, 100, 500, none, false⟩ = 1 := by
    norm_num [effectiveAspectRatio, sampleCrop, jsOr]
  have c : clamp ((800 : ℚ) * 1) 100 500 = 500 := by norm_num [clamp]
  have h := C15_write_clamped sampleClip (sampleCrop (some 1)) (⟨200, 100⟩ : Size ℚ)
    ⟨800, 600⟩ ⟨none, 100, 500, none, false⟩ rfl (by simp [panelOverride, truthy])
    (by norm_num) (by rw [e]; norm_num) (by rw [e, c]; norm_num) (by rw [e, c]; norm_num)
  rw [e, c] at h
  refine ⟨e, c, ?_, h.2⟩
  rw [h.1]
  norm_num

/-- C17: for every container and configuration without an active panel override, if `(W, H)`
is the clip size written by `createImageView.write` and the aspect ratio
`ar = crop.aspectRatio || image.height / image.width` is nonzero (in particular positive), then
`getCenteredCropRect {width: W, height: H} ar`, the crop rect `createClipView.write` computes
for the same crop and image, is `{x: 0, y: 0, width: W, height: H}`. -/
theorem C17_crop_fills_viewport (clip : ClipView α) (crop : Crop α) (image inner : Size α)
    (query : Queries α) (hpan : panelOverride query = false)
    (har : jsOr crop.aspectRatio (image.height / image.width) ≠ 0) :
    getCenteredCropRect
        { width := (createImageView.write clip crop image inner query false).width,
          height := (createImageView.write clip crop image inner query false).height }
        (jsOr crop.aspectRatio (image.height / image.width))
      = { x := 0, y := 0,
          width := (createImageView.write clip crop image inner query false).width,
          height := (createImageView.write clip crop image inner query false).height } := by
  have hr := no_override_ratio crop image query hpan
  have hH : (createImageView.write clip crop image inner query false).height
      = (createImageView.write clip crop image inner query false).width
          * jsOr crop.aspectRatio (image.height / image.width) := by
    rw [(write_size clip crop image inner query).1, (write_size clip crop image inner query).2,
      hr]
    exact containClip_ratio _ _ _ _ har
  generalize (createImageView.write clip crop image inner query false).width = W at hH
  generalize (createImageView.write clip crop image inner query false).height = H at hH
  subst hH
  simp [getCenteredCropRect]

/-- C17 at an image of 200 x 100 in a container of 100 x 10: the clip is 20 x 10 and the crop
rect computed on it with aspect ratio `1/2` is `{0, 0, 20, 10}`. -/
theorem C17_crop_fills_viewport_witness :
    panelOverride (sampleQueries : Queries ℚ) = false ∧
    jsOr (sampleCrop none : Crop ℚ).aspectRatio ((100 : ℚ) / 200) = 1 / 2 ∧
    (createImageView.write sampleClip (sampleCrop none) (⟨200, 100⟩ : Size ℚ) ⟨100, 10⟩
      sampleQueries false).width = 20 ∧
    getCenteredCropRect
        { width := (createImageView.write sampleClip (sampleCrop none) (⟨200, 100⟩ : Size ℚ)
            ⟨100, 10⟩ sampleQueries false).width,
          height := (createImageView.write sampleClip (sampleCrop none) (⟨200, 100⟩ : Size ℚ)
            ⟨100, 10⟩ sampleQueries false).height }
        (jsOr (sampleCrop none : Crop ℚ).aspectRatio
          ((⟨200, 100⟩ : Size ℚ).height / (⟨200, 100⟩ : Size ℚ).width))
      = { x := 0, y := 0,
          width := (createImageView.write sampleClip (sampleCrop none) (⟨200, 100⟩ : Size ℚ)
            ⟨100, 10⟩ sampleQueries false).width,
          height := (createImageView.write sampleClip (sampleCrop none) (⟨200, 100⟩ : Size ℚ)
            ⟨100, 10⟩ sampleQueries false).height } :=
  ⟨by simp [panelOverride, sampleQueries, truthy],
    by norm_num [sampleCrop, jsOr],
    by norm_num [createImageView.write, sampleClip, sampleCrop, sampleQueries, jsOr],
    C17_crop_fills_viewport sampleClip (sampleCrop none) (⟨200, 100⟩ : Size ℚ) ⟨100, 10⟩
      sampleQueries (by simp [panelOverride, sampleQueries, truthy])
      (by norm_num [sampleCrop, jsOr])⟩

end ViewportScenarios

section Placement

/-- C16: for every image size, stage size and crop centre, the origin and translation emitted
by `createClipView.write` when not optimizing are `originX = crop.center.x * image.width`,
`originY = crop.center.y * image.height`, and satisfy `originX + translateX = stage.width / 2`
and `originY + translateY = stage.height / 2`, whatever the zoom, rotation and aspect ratio. -/
theorem C16_pan_point_at_stage_centre {α : Type} [LinearOrderedField α] [FloorRing α]
    (M : JSMath α) (imageView : ImageCanvasWrapper α) (props : ClipProps α) :
    ∃ ox oy tx ty : α,
      (createClipView.write M imageView props false).originX = some ox ∧
      (createClipView.write M imageView props false).originY = some oy ∧
      (createClipView.write M imageView props false).translateX = some tx ∧
      (createClipView.write M imageView props false).translateY = some ty ∧
      ox = props.crop.center.x * imageView.width ∧
      oy = props.crop.center.y * imageView.height ∧
      ox + tx = props.width / 2 ∧
      oy + ty = props.height / 2 := by
  refine ⟨props.crop.center.x * imageView.width, props.crop.center.y * imageView.height,
    props.width * (1 / 2) - imageView.width * props.crop.center.x,
    props.height * (1 / 2) - imageView.height * props.crop.center.y, ?_, ?_, ?_, ?_, rfl, rfl,
    by ring, by ring⟩ <;> simp [createClipView.write]

/-- The effective extent `(c > 1/2 ? 1 - c : c) * 2 * W` of an image side `W > 0` around a pan
coordinate `c` in `[0, 1]`. -/
theorem effective_extent {α : Type} [LinearOrderedField α] (c W : α) (hW : 0 < W)
    (h0 : 0 ≤ c) (h1 : c ≤ 1) :
    (if c > 1 / 2 then 1 - c else c) * 2 * W = 2 * min c (1 - c) * W ∧
    0 ≤ (if c > 1 / 2 then 1 - c else c) * 2 * W ∧
    (if c > 1 / 2 then 1 - c else c) * 2 * W ≤ W ∧
    0 ≤ c * W - (if c > 1 / 2 then 1 - c else c) * 2 * W / 2 ∧
    c * W + (if c > 1 / 2 then 1 - c else c) * 2 * W / 2 ≤ W ∧
    ((if c > 1 / 2 then 1 - c else c) * 2 * W = 0 ↔ c = 0 ∨ c = 1) ∧
    (0 < c → c < 1 → 0 < (if c > 1 / 2 then 1 - c else c) * 2 * W) := by
  split_ifs with h
  · have hc : 1 / 2 < c := h
    have hm : min c (1 - c) = 1 - c := min_eq_right (by linarith)
    have p1 : 0 ≤ (1 - c) * W := mul_nonneg (by linarith) hW.le
    have p2 : 0 ≤ (c - 1 / 2) * W := mul_nonneg (by linarith) hW.le
    refine ⟨by rw [hm]; ring, by linarith, by linarith, by linarith, by linarith, ?_, ?_⟩
    · constructor
      · intro he
        right
        have : (1 - c) * W = 0 := by linarith
        rcases mul_eq_zero.mp this with h3 | h3
        · linarith
        · exact absurd h3 hW.ne.symm
      · rintro (h3 | h3)
        · linarith
        · rw [h3]; ring
    · intro _ hlt
      have : 0 < (1 - c) * W := mul_pos (by linarith) hW
      linarith
  · have hc : c ≤ 1 / 2 := not_lt.mp h
    have hm : min c (1 - c) = c := min_eq_left (by linarith)
    have p1 : 0 ≤ c * W := mul_nonneg h0 hW.le
    have p2 : 0 ≤ (1 / 2 - c) * W := mul_nonneg (by linarith) hW.le
    refine ⟨by rw [hm]; ring, by linarith, by linarith, by linarith, by linarith, ?_, ?_⟩
    · constructor
      · intro he
        left
        have : c * W = 0 := by linarith
        rcases mul_eq_zero.mp this with h3 | h3
        · exact h3
        · exact absurd h3 hW.ne.symm
      · rintro (h3 | h3)
        · rw [h3]; ring
        · linarith
    · intro hlt _
      have : 0 < c * W := mul_pos hlt hW
      linarith

/-- C18: for an image of positive width `W` and `center.x` in `[0, 1]`, the effective image
width `e` used as divisor in `getImageRectZoomFactor` equals `2 * min(center.x, 1 - center.x)
* W`, satisfies `0 ≤ e ≤ W`, the window of width `e` centred on `center.x * W` lies in
`[0, W]`, `e = 0` exactly when `center.x` is `0` or `1`, and `e > 0` for `center.x` strictly
inside `(0, 1)`; the same holds for `center.y` and the height. -/
theorem C18_effective_image_size {α : Type} [LinearOrderedField α] (image : Size α)
    (center : Vec α) (hW : 0 < image.width) (hH : 0 < image.height)
    (hx0 : 0 ≤ center.x) (hx1 : center.x ≤ 1) (hy0 : 0 ≤ center.y) (hy1 : center.y ≤ 1) :
    (effectiveImageWidth image center = 2 * min center.x (1 - center.x) * image.width ∧
      0 ≤ effectiveImageWidth image center ∧
      effectiveImageWidth image center ≤ image.width ∧
      0 ≤ center.x * image.width - effectiveImageWidth image center / 2 ∧
      center.x * image.width + effectiveImageWidth image center / 2 ≤ image.width ∧
      (effectiveImageWidth image center = 0 ↔ center.x = 0 ∨ center.x = 1) ∧
      (0 < center.x → center.x < 1 → 0 < effectiveImageWidth image center)) ∧
    (effectiveImageHeight image center = 2 * min center.y (1 - center.y) * image.height ∧
      0 ≤ effectiveImageHeight image center ∧
      effectiveImageHeight image center ≤ image.height ∧
      0 ≤ center.y * image.height - effectiveImageHeight image center / 2 ∧
      center.y * image.height + effectiveImageHeight image center / 2 ≤ image.height ∧
      (effectiveImageHeight image center = 0 ↔ center.y = 0 ∨ center.y = 1) ∧
      (0 < center.y → center.y < 1 → 0 < effectiveImageHeight image center)) :=
  ⟨effective_extent center.x image.width hW hx0 hx1,
    effective_extent center.y image.height hH hy0 hy1⟩

/-- C18 at an image of 200 x 100 and centre `(3/4, 0)`: the effective width is `100` and the
effective height is `0`. -/
theorem C18_effective_image_size_witness :
    effectiveImageWidth (⟨200, 100⟩ : Size ℚ) ⟨3 / 4, 0⟩ = 100 ∧
    effectiveImageHeight (⟨200, 100⟩ : Size ℚ) ⟨3 / 4, 0⟩ = 0 ∧
    effectiveImageWidth (⟨200, 100⟩ : Size ℚ) ⟨3 / 4, 0⟩ ≤ (⟨200, 100⟩ : Size ℚ).width :=
  ⟨by norm_num [effectiveImageWidth], by norm_num [effectiveImageHeight],
    (C18_effective_image_size (⟨200, 100⟩ : Size ℚ) ⟨3 / 4, 0⟩ (by norm_num) (by norm_num)
      (by norm_num) (by norm_num) (by norm_num) (by norm_num)).1.2.2.1⟩

end Placement

section ScaleAndRotation

/-- The truncating remainder is zero at zero. -/
theorem jsRem_zero {α : Type} [LinearOrderedField α] [FloorRing α] (n : α) :
    jsRem 0 n = 0 := by
  simp [jsRem, jsTrunc]

/-- The truncating remainder by a positive modulus has the sign of the dividend. -/
theorem jsRem_sign {α : Type} [LinearOrderedField α] [FloorRing α] (a n : α) (hn : 0 < n) :
    (0 ≤ a → 0 ≤ jsRem a n) ∧ (a ≤ 0 → jsRem a n ≤ 0) := by
  constructor
  · intro ha
    have hq : 0 ≤ a / n := div_nonneg ha hn.le
    have e : a - n * ((Int.floor (a / n) : ℤ) : α) = n * (a / n - (Int.floor (a / n) : α)) := by
      field_simp
    have h1 : ((Int.floor (a / n) : ℤ) : α) ≤ a / n := Int.floor_le _
    unfold jsRem jsTrunc
    rw [if_pos hq, e]
    exact mul_nonneg hn.le (by linarith)
  · intro ha
    rcases eq_or_lt_of_le ha with h0 | hneg
    · rw [h0, jsRem_zero]
    · have hq : ¬ 0 ≤ a / n := not_le.mpr (div_neg_of_neg_of_pos hneg hn)
      have e : a - n * ((Int.ceil (a / n) : ℤ) : α)
          = -(n * ((Int.ceil (a / n) : α) - a / n)) := by
        field_simp
        ring
      have h1 : a / n ≤ ((Int.ceil (a / n) : ℤ) : α) := Int.le_ceil _
      unfold jsRem jsTrunc
      rw [if_neg hq, e]
      have : 0 ≤ n * ((Int.ceil (a / n) : α) - a / n) := mul_nonneg hn.le (by linarith)
      linarith

/-- At a full turn and centre `(1/2, 1/2)` the zoom factor of a rect with non-negative sides
is the larger of `rect.width / image.width` and `rect.height / image.height`. -/
theorem zoomFactor_full_turn (image : Size ℝ) (rect : Rect ℝ) (center : Vec ℝ)
    (hcx : center.x = 1 / 2) (hcy : center.y = 1 / 2)
    (hw : 0 ≤ rect.width) (hh : 0 ≤ rect.height) :
    getImageRectZoomFactor ⟨Real.sin, Real.cos, Real.sqrt, Real.pi, Real.pi / 2⟩ image rect
        (Real.pi * 2) center
      = max (rect.width / image.width) (rect.height / image.height) := by
  obtain ⟨x, y, w, h⟩ := rect
  rw [zoomFactor_eq, rotated_width_eq x y w h _ hw hh, rotated_height_eq x y w h _ hw hh]
  simp only [effectiveImageWidth, effectiveImageHeight, hcx, hcy, mul_comm Real.pi 2,
    Real.cos_two_pi, Real.sin_two_pi, abs_one, abs_zero, mul_one, mul_zero, add_zero, zero_add,
    gt_iff_lt, lt_irrefl, if_false]
  norm_num

/-- C19: for every positive image size `(iw, ih)`, every positive stage size `(sw, sh)` and
every zoom, with `crop.aspectRatio` absent, `crop.rotation = 0` and `crop.center = (1/2, 1/2)`,
`createClipView.write` emits `scaleX = scaleY = crop.zoom * min (sw / iw) (sh / ih)`, the
contain-fit scale of the image in the stage. -/
theorem C19_contain_fit_scale (imageView : ImageCanvasWrapper ℝ) (props : ClipProps ℝ)
    (hiw : 0 < imageView.width) (hih : 0 < imageView.height)
    (hsw : 0 < props.width) (hsh : 0 < props.height)
    (har : props.crop.aspectRatio = none) (hrot : props.crop.rotation = 0)
    (hcx : props.crop.center.x = 1 / 2) (hcy : props.crop.center.y = 1 / 2) :
    (createClipView.write ⟨Real.sin, Real.cos, Real.sqrt, Real.pi, Real.pi / 2⟩
      imageView props false).scaleX
      = some (props.crop.zoom
          * min (props.width / imageView.width) (props.height / imageView.height)) ∧
    (createClipView.write ⟨Real.sin, Real.cos, Real.sqrt, Real.pi, Real.pi / 2⟩
      imageView props false).scaleY
      = some (props.crop.zoom
          * min (props.width / imageView.width) (props.height / imageView.height)) := by
  have hratio : jsOr props.crop.aspectRatio (imageView.height / imageView.width)
      = imageView.height / imageView.width := by
    rw [har]; rfl
  have hpos : 0 < imageView.height / imageView.width := div_pos hih hiw
  have hX : (createClipView.write ⟨Real.sin, Real.cos, Real.sqrt, Real.pi, Real.pi / 2⟩
      imageView props false).scaleX
      = some (props.crop.zoom
          * min (props.width / imageView.width) (props.height / imageView.height)) := by
    rw [(write_scale _ imageView props).1, hratio, hrot, jsRem_zero, add_zero]
    congr 2
    by_cases h : props.width * (imageView.height / imageView.width) > props.height
    · have hR : getCenteredCropRect (⟨props.width, props.height⟩ : Size ℝ)
          (imageView.height / imageView.width)
          = ⟨(props.width - props.height / (imageView.height / imageView.width)) * (1 / 2),
              (props.height - props.height) * (1 / 2),
              props.height / (imageView.height / imageView.width), props.height⟩ := by
        simp only [getCenteredCropRect, if_pos h]
      rw [hR, zoomFactor_full_turn _ _ _ hcx hcy (div_nonneg hsh.le hpos.le) hsh.le]
      have e1 : props.height / (imageView.height / imageView.width) / imageView.width
          = props.height / imageView.height := by
        field_simp
        ring
      have hlt : props.height / imageView.height < props.width / imageView.width := by
        have h3 : props.height < props.width * imageView.height / imageView.width := by
          rw [mul_div_assoc]; exact h
        rw [div_lt_div_iff₀ hih hiw]
        exact (lt_div_iff₀ hiw).mp h3
      simp only [e1, max_self]
      exact (min_eq_right hlt.le).symm
    · have hR : getCenteredCropRect (⟨props.width, props.height⟩ : Size ℝ)
          (imageView.height / imageView.width)
          = ⟨(props.width - props.width) * (1 / 2),
              (props.height - props.width * (imageView.height / imageView.width)) * (1 / 2),
              props.width, props.width * (imageView.height / imageView.width)⟩ := by
        simp only [getCenteredCropRect, if_neg h]
      rw [hR, zoomFactor_full_turn _ _ _ hcx hcy hsw.le (mul_nonneg hsw.le hpos.le)]
      have e1 : props.width * (imageView.height / imageView.width) / imageView.height
          = props.width / imageView.width := by
        field_simp
        ring
      have hle : props.width / imageView.width ≤ props.height / imageView.height := by
        have h3 : props.width * imageView.height / imageView.width ≤ props.height := by
          rw [mul_div_assoc]; exact not_lt.mp h
        rw [div_le_div_iff₀ hiw hih]
        exact (div_le_iff₀ hiw).mp h3
      simp only [e1, max_self]
      exact (min_eq_left hle).symm
  exact ⟨hX, (write_scale _ imageView props).2.trans hX⟩

/-- C19 at an image of 200 x 100 on a stage of 100 x 100 with zoom `3`: the scale is
`3 * min (100 / 200) (100 / 100)`. -/
theorem C19_contain_fit_scale_witness :
    (createClipView.write ⟨Real.sin, Real.cos, Real.sqrt, Real.pi, Real.pi / 2⟩
      (sampleImageView 200 100)
      ⟨{ center := { x := 1 / 2, y := 1 / 2 }, zoom := 3, rotation := 0, aspectRatio := none,
          flip := { horizontal := false, vertical := false } }, 100, 100⟩ false).scaleX
      = some ((3 : ℝ) * min ((100 : ℝ) / 200) ((100 : ℝ) / 100)) :=
  (C19_contain_fit_scale (sampleImageView 200 100)
    ⟨{ center := { x := 1 / 2, y := 1 / 2 }, zoom := 3, rotation := 0, aspectRatio := none,
        flip := { horizontal := false, vertical := false } }, 100, 100⟩
    (by norm_num [sampleImageView]) (by norm_num [sampleImageView]) (by norm_num)
    (by norm_num) rfl rfl rfl rfl).1

/-- C20: for every real `crop.rotation = r`, the `rotateZ` emitted by `createClipView.write`
is `2π + (r % 2π)` with the truncating remainder: it lies strictly between `0` and `4π`,
differs from `r` by an integer multiple of `2π`, is at least `2π` for `r ≥ 0` and at most `2π`
for `r ≤ 0` (the remainder has the sign of the dividend), and equals `2π` when `r = 0`. -/
theorem C20_rotateZ_value (imageView : ImageCanvasWrapper ℝ) (props : ClipProps ℝ) :
    (createClipView.write ⟨Real.sin, Real.cos, Real.sqrt, Real.pi, Real.pi / 2⟩
      imageView props false).rotateZ
      = some (Real.pi * 2 + jsRem props.crop.rotation (Real.pi * 2)) ∧
    0 < Real.pi * 2 + jsRem props.crop.rotation (Real.pi * 2) ∧
    Real.pi * 2 + jsRem props.crop.rotation (Real.pi * 2) < 4 * Real.pi ∧
    (∃ k : ℤ, Real.pi * 2 + jsRem props.crop.rotation (Real.pi * 2) - props.crop.rotation
      = (k : ℝ) * (2 * Real.pi)) ∧
    (0 ≤ props.crop.rotation →
      2 * Real.pi ≤ Real.pi * 2 + jsRem props.crop.rotation (Real.pi * 2)) ∧
    (props.crop.rotation ≤ 0 →
      Real.pi * 2 + jsRem props.crop.rotation (Real.pi * 2) ≤ 2 * Real.pi) ∧
    (props.crop.rotation = 0 →
      Real.pi * 2 + jsRem props.crop.rotation (Real.pi * 2) = 2 * Real.pi) := by
  have hpos : (0 : ℝ) < Real.pi * 2 := by positivity
  obtain ⟨h1, h2⟩ := jsRem_bounds props.crop.rotation (Real.pi * 2) hpos
  obtain ⟨s1, s2⟩ := jsRem_sign props.crop.rotation (Real.pi * 2) hpos
  refine ⟨write_rotateZ _ _ _, by linarith, by linarith,
    ⟨1 - jsTrunc (props.crop.rotation / (Real.pi * 2)), ?_⟩, ?_, ?_, ?_⟩
  · unfold jsRem
    push_cast
    ring
  · intro h
    have := s1 h
    linarith
  · intro h
    have := s2 h
    linarith
  · intro h
    rw [h, jsRem_zero]
    ring

/-- C20 at `crop.rotation = 0`: the emitted `rotateZ` is `π * 2 + (0 % (π * 2))`, which is
`2π`. -/
theorem C20_rotateZ_value_witness :
    (createClipView.write ⟨Real.sin, Real.cos, Real.sqrt, Real.pi, Real.pi / 2⟩
      (sampleImageView 200 100) ⟨sampleCrop none, 100, 100⟩ false).rotateZ
      = some (Real.pi * 2 + jsRem (0 : ℝ) (Real.pi * 2)) ∧
    Real.pi * 2 + jsRem (0 : ℝ) (Real.pi * 2) = 2 * Real.pi :=
  ⟨(C20_rotateZ_value (sampleImageView 200 100) ⟨sampleCrop none, 100, 100⟩).1,
    (C20_rotateZ_value (sampleImageView 200 100) ⟨sampleCrop none, 100, 100⟩).2.2.2.2.2.2 rfl⟩

end ScaleAndRotation

end ImagePreview
